import Mathlib

/-!
Verification development for the meetingagent repository: a Flask HTTP
server (enhanced_chrome_extension_server.py) exposing calendar-research
endpoints over an external CalendarPersonResearchAgent, and a LangChain
wrapper (langchain_agent.py) registering calendar tools for a ReAct agent.

The external agent is modelled as a record of methods; a method that can
raise an exception returns an Except value whose error is the exception
message str(e).  Flask responses are modelled as a status code plus a JSON
value.  Handlers are pure functions of the module state (the optional
calendar_agent singleton) and the request data.
-/

namespace MeetingAgent

/-- JSON values, as produced by flask jsonify. -/
inductive Json where
  | null
  | str (s : String)
  | num (n : Int)
  | bool (b : Bool)
  | arr (xs : List Json)
  | obj (fields : List (String × Json))
deriving Repr

/-- Calendar date (the result of datetime.date()). -/
structure Date where
  year : Nat
  month : Nat
  day : Nat
deriving Repr, DecidableEq

/-- A datetime value: a date plus a time of day. -/
structure DateTime where
  date : Date
  hour : Nat
  minute : Nat
  second : Nat
deriving Repr, DecidableEq

/-- Zero-pad a number to two digits, as strftime %m and %d do. -/
def pad2 (n : Nat) : String :=
  if n < 10 then "0" ++ toString n else toString n

/-- Zero-pad a year to four digits. -/
def pad4 (n : Nat) : String :=
  if n < 10 then "000" ++ toString n
  else if n < 100 then "00" ++ toString n
  else if n < 1000 then "0" ++ toString n
  else toString n

/-- Full month name, strftime %B. -/
def monthNameFull (m : Nat) : String :=
  match m with
  | 1 => "January" | 2 => "February" | 3 => "March" | 4 => "April"
  | 5 => "May" | 6 => "June" | 7 => "July" | 8 => "August"
  | 9 => "September" | 10 => "October" | 11 => "November" | 12 => "December"
  | _ => ""

/-- Abbreviated month name, strftime %b. -/
def monthNameAbbrev (m : Nat) : String :=
  match m with
  | 1 => "Jan" | 2 => "Feb" | 3 => "Mar" | 4 => "Apr"
  | 5 => "May" | 6 => "Jun" | 7 => "Jul" | 8 => "Aug"
  | 9 => "Sep" | 10 => "Oct" | 11 => "Nov" | 12 => "Dec"
  | _ => ""

/-- strftime with format %B %d, %Y, e.g. September 24, 2025. -/
def Date.strftimeBdY (d : Date) : String :=
  monthNameFull d.month ++ " " ++ pad2 d.day ++ ", " ++ toString d.year

/-- strftime with format %b %d, %Y, e.g. Sep 24, 2025. -/
def Date.strftimebdY (d : Date) : String :=
  monthNameAbbrev d.month ++ " " ++ pad2 d.day ++ ", " ++ toString d.year

/-- strftime with format %m/%d/%Y, e.g. 09/24/2025. -/
def Date.strftimemdY (d : Date) : String :=
  pad2 d.month ++ "/" ++ pad2 d.day ++ "/" ++ pad4 d.year

/-- strftime with format %m/%d, e.g. 09/24. -/
def Date.strftimemd (d : Date) : String :=
  pad2 d.month ++ "/" ++ pad2 d.day

/-- strftime with format %Y-%m-%d, e.g. 2025-09-24. -/
def Date.strftimeYmd (d : Date) : String :=
  pad4 d.year ++ "-" ++ pad2 d.month ++ "-" ++ pad2 d.day

/-- datetime.isoformat() for a datetime with no microseconds. -/
def DateTime.isoformat (dt : DateTime) : String :=
  dt.date.strftimeYmd ++ "T" ++ pad2 dt.hour ++ ":" ++ pad2 dt.minute ++ ":" ++ pad2 dt.second

/-- Whether a year is a leap year (Gregorian rule). -/
def isLeapYear (y : Nat) : Bool :=
  (y % 4 = 0 && y % 100 != 0) || y % 400 = 0

/-- Number of days in a month of a year. -/
def daysInMonth (y m : Nat) : Nat :=
  if m = 2 then (if isLeapYear y then 29 else 28)
  else if m = 4 || m = 6 || m = 9 || m = 11 then 30
  else 31

/-- Split a character list on a separator character. -/
def splitOnChar (c : Char) : List Char → List (List Char)
  | [] => [[]]
  | x :: xs =>
    let r := splitOnChar c xs
    if x = c then [] :: r
    else
      match r with
      | [] => [[x]]
      | y :: ys => (x :: y) :: ys

/-- Read a non-empty all-digit character list as a number. -/
def digitsToNatAux : List Char → Nat → Option Nat
  | [], acc => some acc
  | c :: cs, acc =>
    if c.isDigit then digitsToNatAux cs (acc * 10 + (c.toNat - 48)) else none

/-- Parse a decimal field of a date string. -/
def digitsToNat? (cs : List Char) : Option Nat :=
  if cs.isEmpty then none else digitsToNatAux cs 0

/-- datetime.strptime(date_str, %Y-%m-%d), returning the date on success and
none when the Python call would raise ValueError: three dash-separated
digit fields of bounded width forming a valid calendar date. -/
def strptimeYmd (s : String) : Option Date :=
  match splitOnChar (Char.ofNat 45) s.toList with
  | [ys, ms, ds] =>
    match digitsToNat? ys, digitsToNat? ms, digitsToNat? ds with
    | some y, some m, some d =>
      if ys.length ≤ 4 && ms.length ≤ 2 && ds.length ≤ 2
          && 1 ≤ m && m ≤ 12 && 1 ≤ d && d ≤ daysInMonth y m then
        some ⟨y, m, d⟩
      else none
    | _, _, _ => none
  | _ => none

/-- The error message carried by the ValueError that strptime raises on a
string that does not match the format. -/
def strptimeErrorMsg (s : String) : String :=
  "time data " ++ s ++ " does not match format %Y-%m-%d"

/-- An attendee identity as carried by an AttendeeResearchResult. -/
structure Attendee where
  display_name : String
  email : String
  company : String
  title : String
deriving Repr, DecidableEq

/-- An attendee research result produced by the external agent. -/
structure AttendeeResearchResult where
  attendee : Attendee
  research_summary : String
  found_info : Bool
deriving Repr, DecidableEq

/-- A meeting record as returned by the external calendar research agent. -/
structure Meeting where
  meeting_id : String
  meeting_title : String
  start_time : Option DateTime
  end_time : Option DateTime
  location : String
  description : String
deriving Repr, DecidableEq

/-- The external CalendarPersonResearchAgent, modelled as a record of
methods.  A method returns Except String when the call can raise; the error
value is the exception message str(e). -/
structure CalendarAgent where
  search_meetings_by_keyword : String → Nat → Except String (List Meeting)
  research_meeting_attendees : Meeting → Except String (List AttendeeResearchResult)
  generate_meeting_summary : Meeting → List AttendeeResearchResult → Except String String
  generate_meeting_type_questions : Meeting → List AttendeeResearchResult → Except String String
  get_meeting_by_id : String → Except String (Option Meeting)
  get_next_meeting_info : Except String (Option Meeting)

/-- A Flask response: HTTP status code plus jsonify body. -/
structure Response where
  status : Nat
  body : Json
deriving Repr

/-- Map a fallible function over a list, stopping at the first error: the
Python for-loop that appends to an accumulator inside a try block. -/
def mapME (f : α → Except ε β) : List α → Except ε (List β)
  | [] => .ok []
  | x :: xs =>
    match f x with
    | .error e => .error e
    | .ok y =>
      match mapME f xs with
      | .error e => .error e
      | .ok ys => .ok (y :: ys)

/-- The attendee_info dict built from one research result. -/
def attendeeJson (r : AttendeeResearchResult) : Json :=
  .obj [("name", .str r.attendee.display_name),
        ("email", .str r.attendee.email),
        ("company", .str r.attendee.company),
        ("title", .str r.attendee.title),
        ("research_summary", .str r.research_summary),
        ("found_info", .bool r.found_info)]

/-- start_time.isoformat() if start_time else None. -/
def optTimeJson : Option DateTime → Json
  | some dt => .str dt.isoformat
  | none => .null

/-- The enhanced meeting dict built by the handlers: meeting fields, the
attendee research list, and the research summary and preparation
questions. -/
def meetingJson (m : Meeting) (results : List AttendeeResearchResult)
    (summary questions : String) : Json :=
  .obj [("id", .str m.meeting_id),
        ("title", .str m.meeting_title),
        ("start_time", optTimeJson m.start_time),
        ("end_time", optTimeJson m.end_time),
        ("location", .str m.location),
        ("description", .str m.description),
        ("attendees", .arr (results.map attendeeJson)),
        ("research_summary", .str summary),
        ("preparation_questions", .str questions)]

/-- Per-meeting processing in get_meetings_for_date and search_meetings:
research the attendees (an exception propagates), then generate the summary
and questions inside an inner try whose except branch substitutes the two
error strings. -/
def enhanceMeeting (agent : CalendarAgent) (m : Meeting) : Except String Json :=
  match agent.research_meeting_attendees m with
  | .error e => .error e
  | .ok results =>
    match agent.generate_meeting_summary m results with
    | .error _ =>
      .ok (meetingJson m results "Error generating research summary"
        "Error generating preparation questions")
    | .ok s =>
      match agent.generate_meeting_type_questions m results with
      | .error _ =>
        .ok (meetingJson m results "Error generating research summary"
          "Error generating preparation questions")
      | .ok q => .ok (meetingJson m results s q)

/-- The date_formats list of Strategy 2, in source order. -/
def dateFormats (target : Date) : List String :=
  [target.strftimeBdY, target.strftimebdY, target.strftimemdY,
   target.strftimemd, toString target.day, target.strftimeYmd]

/-- Strategy 2 loop: search each reformatted date string in order, stopping
at the first non-empty result; an exception propagates to the outer try. -/
def tryDateFormats (agent : CalendarAgent) : List String → Except String (List Meeting)
  | [] => .ok []
  | f :: fs =>
    match agent.search_meetings_by_keyword f 10 with
    | .error e => .error e
    | .ok ms => if ms.isEmpty then tryDateFormats agent fs else .ok ms

/-- The generic keywords of Strategy 3, in source order. -/
def genericKeywords : List String :=
  ["meeting", "interview", "call", "appointment", "session", "discussion", "event"]

/-- The dedup loop of Strategy 3, carrying the seen_titles set. -/
def dedupGo (seen : List String) : List Meeting → List Meeting
  | [] => []
  | m :: ms =>
    if m.meeting_title ∈ seen then dedupGo seen ms
    else m :: dedupGo (m.meeting_title :: seen) ms

/-- Remove duplicate meetings by title, keeping the first occurrence. -/
def dedupByTitle (l : List Meeting) : List Meeting := dedupGo [] l

/-- The date filter of Strategy 3: keep a meeting iff its start_time is
present and falls on the target date. -/
def matchesDate (target : Date) (m : Meeting) : Bool :=
  match m.start_time with
  | some dt => decide (dt.date = target)
  | none => false

/-- Strategy 3: search every generic keyword, concatenate, deduplicate by
title, and filter by date.  The block sits in an inner try: when a search
raises, meetings keeps its previous (empty) value. -/
def scanAllMeetings (agent : CalendarAgent) (target : Date) : List Meeting :=
  match mapME (fun k => agent.search_meetings_by_keyword k 20) genericKeywords with
  | .error _ => []
  | .ok lists =>
    let unique_meetings := dedupByTitle lists.flatten
    unique_meetings.filter (matchesDate target)

/-- The three-strategy meeting resolution of get_meetings_for_date. -/
def resolveMeetingsForDate (agent : CalendarAgent) (date_str : String)
    (target : Date) : Except String (List Meeting) :=
  match agent.search_meetings_by_keyword date_str 10 with
  | .error e => .error e
  | .ok meetings =>
    if meetings.isEmpty then
      match tryDateFormats agent (dateFormats target) with
      | .error e => .error e
      | .ok meetings2 =>
        if meetings2.isEmpty then .ok (scanAllMeetings agent target)
        else .ok meetings2
    else .ok meetings

/-- Build the final response of get_meetings_for_date from the outcome of
resolution plus enhancement: 200 with date, meetings and count on success,
500 with the exception message and an empty meetings list on failure. -/
def meetingsDateResponse (date_str : String) (res : Except String (List Json)) : Response :=
  match res with
  | .ok enhanced =>
    ⟨200, .obj [("date", .str date_str),
                ("meetings", .arr enhanced),
                ("count", .num enhanced.length)]⟩
  | .error e => ⟨500, .obj [("error", .str e), ("meetings", .arr [])]⟩

/-- Handler of GET /meetings/date_str. -/
def get_meetings_for_date (agent? : Option CalendarAgent) (date_str : String) : Response :=
  match agent? with
  | none => ⟨500, .obj [("error", .str "Calendar agent not available"),
                        ("meetings", .arr [])]⟩
  | some agent =>
    match strptimeYmd date_str with
    | none => ⟨500, .obj [("error", .str (strptimeErrorMsg date_str)),
                          ("meetings", .arr [])]⟩
    | some target =>
      meetingsDateResponse date_str
        ((resolveMeetingsForDate agent date_str target).bind
          (fun meetings => mapME (enhanceMeeting agent) meetings))

/-- The try block of get_meeting_details: look the meeting up (404 when
absent), research the attendees and generate the analysis; any exception
escapes to the except branch. -/
def meetingDetailsCore (agent : CalendarAgent) (meeting_id : String) :
    Except String Response :=
  match agent.get_meeting_by_id meeting_id with
  | .error e => .error e
  | .ok none => .ok ⟨404, .obj [("error", .str "Meeting not found")]⟩
  | .ok (some meeting) =>
    match agent.research_meeting_attendees meeting with
    | .error e => .error e
    | .ok results =>
      match agent.generate_meeting_summary meeting results with
      | .error e => .error e
      | .ok s =>
        match agent.generate_meeting_type_questions meeting results with
        | .error e => .error e
        | .ok q => .ok ⟨200, meetingJson meeting results s q⟩

/-- Handler of GET /meeting/meeting_id. -/
def get_meeting_details (agent? : Option CalendarAgent) (meeting_id : String) : Response :=
  match agent? with
  | none => ⟨500, .obj [("error", .str "Calendar agent not available")]⟩
  | some agent =>
    match meetingDetailsCore agent meeting_id with
    | .ok r => r
    | .error e => ⟨500, .obj [("error", .str e)]⟩

/-- The try block of get_next_meeting. -/
def nextMeetingCore (agent : CalendarAgent) : Except String Response :=
  match agent.get_next_meeting_info with
  | .error e => .error e
  | .ok none =>
    .ok ⟨200, .obj [("message", .str "No upcoming meetings found"),
                    ("meeting", .null)]⟩
  | .ok (some meeting) =>
    match agent.research_meeting_attendees meeting with
    | .error e => .error e
    | .ok results =>
      match agent.generate_meeting_summary meeting results with
      | .error e => .error e
      | .ok s =>
        match agent.generate_meeting_type_questions meeting results with
        | .error e => .error e
        | .ok q => .ok ⟨200, .obj [("meeting", meetingJson meeting results s q)]⟩

/-- Handler of GET /next-meeting. -/
def get_next_meeting (agent? : Option CalendarAgent) : Response :=
  match agent? with
  | none => ⟨500, .obj [("error", .str "Calendar agent not available")]⟩
  | some agent =>
    match nextMeetingCore agent with
    | .ok r => r
    | .error e => ⟨500, .obj [("error", .str e)]⟩

/-- The request body of POST /search-meetings as seen by the handler:
error e models request.get_json() raising (message str(e)); ok none models
a JSON object without a keyword key, read as the empty string by
data.get; ok (some k) models keyword k. -/
abbrev SearchBody := Except String (Option String)

/-- The try block of search_meetings: read the keyword from the request
JSON (the empty string when absent), reject an empty keyword with 400,
otherwise search and enhance. -/
def searchMeetingsCore (agent : CalendarAgent) (body : SearchBody) :
    Except String Response :=
  match body with
  | .error e => .error e
  | .ok kw? =>
    if kw?.getD "" = "" then
      .ok ⟨400, .obj [("error", .str "Keyword is required")]⟩
    else
      match agent.search_meetings_by_keyword (kw?.getD "") 5 with
      | .error e => .error e
      | .ok meetings =>
        match mapME (enhanceMeeting agent) meetings with
        | .error e => .error e
        | .ok enhanced =>
          .ok ⟨200, .obj [("keyword", .str (kw?.getD "")),
                          ("meetings", .arr enhanced),
                          ("count", .num enhanced.length)]⟩

/-- Handler of POST /search-meetings. -/
def search_meetings (agent? : Option CalendarAgent) (body : SearchBody) : Response :=
  match agent? with
  | none => ⟨500, .obj [("error", .str "Calendar agent not available")]⟩
  | some agent =>
    match searchMeetingsCore agent body with
    | .ok r => r
    | .error e => ⟨500, .obj [("error", .str e)]⟩

/-- Handler of GET /health; now is the value of datetime.now(). -/
def health_check (agent? : Option CalendarAgent) (now : DateTime) : Response :=
  ⟨200, .obj [("status", .str "healthy"),
              ("agent_available", .bool agent?.isSome),
              ("timestamp", .str now.isoformat)]⟩

/-- The route table registered on the Flask app, in source order. -/
def appRoutes : List (String × List String) :=
  [("/health", ["GET"]),
   ("/meetings/<date_str>", ["GET"]),
   ("/meeting/<meeting_id>", ["GET"]),
   ("/next-meeting", ["GET"]),
   ("/search-meetings", ["POST"])]

/-- The module-level state of the server: the calendar_agent singleton,
None when initialization failed. -/
structure ServerState where
  calendar_agent : Option CalendarAgent

/-- A request to one of the registered routes. -/
inductive Request where
  | health (now : DateTime)
  | meetingsForDate (date_str : String)
  | meetingById (meeting_id : String)
  | nextMeeting
  | searchMeetings (body : SearchBody)

/-- Dispatch a request to its handler, threading the module state; no
handler assigns a module-level name, so the state passes through. -/
def handleRequest (s : ServerState) (r : Request) : Response × ServerState :=
  match r with
  | .health now => (health_check s.calendar_agent now, s)
  | .meetingsForDate ds => (get_meetings_for_date s.calendar_agent ds, s)
  | .meetingById mid => (get_meeting_details s.calendar_agent mid, s)
  | .nextMeeting => (get_next_meeting s.calendar_agent, s)
  | .searchMeetings body => (search_meetings s.calendar_agent body, s)

/-! ## Predicates on JSON responses -/

/-- Field lookup in a JSON object (none on a non-object). -/
def lookupField (j : Json) (k : String) : Option Json :=
  match j with
  | .obj fields => fields.lookup k
  | _ => none

/-- Whether a JSON value is an object. -/
def isObjB : Json → Bool
  | .obj _ => true
  | _ => false

/-- Whether a JSON value carries a string under the error key. -/
def errorStringField (j : Json) : Bool :=
  match lookupField j "error" with
  | some (.str _) => true
  | _ => false

/-- The keys of a JSON object, in order. -/
def jsonKeys : Json → List String
  | .obj fields => fields.map Prod.fst
  | _ => []

/-- Whether a JSON value is a string or null. -/
def isStrOrNull : Json → Bool
  | .str _ => true
  | .null => true
  | _ => false

/-- The exact field set of a serialized attendee. -/
def attendeeShapeOk (j : Json) : Bool :=
  jsonKeys j == ["name", "email", "company", "title", "research_summary", "found_info"]
    && isObjB j

/-- The exact field set of a serialized meeting, with start_time and
end_time a string or null, and every attendee correctly shaped. -/
def meetingShapeOk (j : Json) : Bool :=
  isObjB j
    && (jsonKeys j == ["id", "title", "start_time", "end_time", "location",
                       "description", "attendees", "research_summary",
                       "preparation_questions"])
    && (match lookupField j "start_time" with
        | some v => isStrOrNull v
        | none => false)
    && (match lookupField j "end_time" with
        | some v => isStrOrNull v
        | none => false)
    && (match lookupField j "attendees" with
        | some (.arr xs) => xs.all attendeeShapeOk
        | _ => false)

/-- Every element of the meetings field of a response is a correctly
shaped meeting object. -/
def responseMeetingsShaped (r : Response) : Bool :=
  match lookupField r.body "meetings" with
  | some (.arr xs) => xs.all meetingShapeOk
  | _ => false

/-- The meeting field of a response is null or a correctly shaped meeting
object. -/
def nextMeetingShaped (r : Response) : Bool :=
  match lookupField r.body "meeting" with
  | some .null => true
  | some j => meetingShapeOk j
  | none => false

/-- The count field of a response equals the length of its meetings
array. -/
def countFieldMatches (r : Response) : Bool :=
  match lookupField r.body "count", lookupField r.body "meetings" with
  | some (.num n), some (.arr xs) => n == (xs.length : Int)
  | _, _ => false

/-! ## Spec-side restatement of the claimed fallback cascade -/

/-- Stated from the claim: try search strings one at a time in the given
order, stopping at the first non-empty result. -/
def specTryInOrder (agent : CalendarAgent) : List String → Except String (List Meeting)
  | [] => .ok []
  | k :: ks =>
    match agent.search_meetings_by_keyword k 10 with
    | .error e => .error e
    | .ok ms => if ms = [] then specTryInOrder agent ks else .ok ms

/-- Stated from the claim: scan by the generic keywords, deduplicate, and
filter client-side by date equality. -/
def specGenericScan (agent : CalendarAgent) (target : Date) : List Meeting :=
  match mapME (fun k => agent.search_meetings_by_keyword k 20)
      ["meeting", "interview", "call", "appointment", "session", "discussion", "event"] with
  | .error _ => []
  | .ok lists => (dedupByTitle lists.flatten).filter (matchesDate target)

/-- Stated from the claim: first the literal date string; only if that is
empty the six reformatted date strings in order; only if all of those are
empty the generic keyword scan filtered by date. -/
def specFallbackSearch (agent : CalendarAgent) (date_str : String) (target : Date) :
    Except String (List Meeting) :=
  match agent.search_meetings_by_keyword date_str 10 with
  | .error e => .error e
  | .ok literal =>
    if literal ≠ [] then .ok literal
    else
      match specTryInOrder agent
          [target.strftimeBdY, target.strftimebdY, target.strftimemdY,
           target.strftimemd, toString target.day, target.strftimeYmd] with
      | .error e => .error e
      | .ok reformatted =>
        if reformatted ≠ [] then .ok reformatted
        else .ok (specGenericScan agent target)

/-! ## Concrete fixtures used by witnesses and counterexamples -/

/-- A concrete datetime on 2025-09-24. -/
def dt0 : DateTime := ⟨⟨2025, 9, 24⟩, 10, 0, 0⟩

/-- A concrete meeting on 2025-09-24. -/
def m0 : Meeting :=
  ⟨"m1", "Interview with Alice", some dt0, some ⟨⟨2025, 9, 24⟩, 11, 0, 0⟩,
   "Room 1", "Technical interview"⟩

/-- A concrete attendee research result. -/
def r0 : AttendeeResearchResult :=
  ⟨⟨"Alice", "alice@example.com", "Acme", "Engineer"⟩, "Senior engineer at Acme", true⟩

/-- An agent whose searches all come back empty and whose lookups find
nothing. -/
def agentEmpty : CalendarAgent :=
  ⟨fun _ _ => .ok [], fun _ => .ok [], fun _ _ => .ok "", fun _ _ => .ok "",
   fun _ => .ok none, .ok none⟩

/-- An agent that finds m0 under the literal date string 2025-09-24, under
the keyword interview and under the id m1, and generates analysis
successfully. -/
def agentOne : CalendarAgent :=
  ⟨fun k _ => if k = "2025-09-24" || k = "interview" then .ok [m0] else .ok [],
   fun _ => .ok [r0],
   fun _ _ => .ok "a meeting summary",
   fun _ _ => .ok "some preparation questions",
   fun i => .ok (if i = "m1" then some m0 else none),
   .ok (some m0)⟩

/-- Like agentOne, but generate_meeting_summary raises. -/
def agentErrGen : CalendarAgent :=
  ⟨fun k _ => if k = "2025-09-24" || k = "interview" then .ok [m0] else .ok [],
   fun _ => .ok [r0],
   fun _ _ => .error "boom",
   fun _ _ => .ok "some preparation questions",
   fun i => .ok (if i = "m1" then some m0 else none),
   .ok (some m0)⟩

/-! ## The LangChain wrapper (langchain_agent.py) -/

/-- A MeetingInfo record of the calendar_agent module consumed by the
LangChain tools. -/
structure MeetingInfo where
  meeting_title : String
  person_names : List String
  start_time : Option DateTime
  end_time : Option DateTime
  original_description : String
  location : String
  organizer_name : String
  organizer_email : String
  attendee_display_names : List String
deriving Repr

/-- The day_events value returned by get_events_for_day. -/
structure DayEvents where
  total_events : Nat
  meetings : List MeetingInfo
deriving Repr

/-- The CalendarAgent class of the calendar_agent module, as used by the
LangChain tools. -/
structure CalendarAgentLC where
  get_next_meeting_info : Option MeetingInfo
  search_meetings_by_keyword : String → Nat → List MeetingInfo
  get_events_for_day : String → Except String DayEvents
  get_meeting_info_by_id : String → Option MeetingInfo

/-- Render a string as a JSON string literal (json.dumps of a str). -/
def dumpStr (s : String) : String :=
  let quote := String.singleton (Char.ofNat 34)
  let esc : Char → String := fun c =>
    if c = Char.ofNat 34 then String.mk [Char.ofNat 92, Char.ofNat 34]
    else if c = Char.ofNat 92 then String.mk [Char.ofNat 92, Char.ofNat 92]
    else String.singleton c
  quote ++ String.join (s.toList.map esc) ++ quote

/-- Render a list of strings as a JSON array. -/
def dumpStrList (xs : List String) : String :=
  "[" ++ String.intercalate ", " (xs.map dumpStr) ++ "]"

/-- Render an optional datetime: isoformat if present else null. -/
def dumpOptTime : Option DateTime → String
  | some dt => dumpStr dt.isoformat
  | none => "null"

/-- Render an object from rendered key-value pairs. -/
def dumpObj (fields : List (String × String)) : String :=
  "\x7b" ++ String.intercalate ", " (fields.map fun p => dumpStr p.1 ++ ": " ++ p.2) ++ "\x7d"

/-- A LangChain Tool: a name, a callback and a description. -/
structure Tool where
  name : String
  func : String → String
  description : String

/-- Tool callback get_next_meeting_tool. -/
def get_next_meeting_tool (ca : CalendarAgentLC) (_query : String) : String :=
  match ca.get_next_meeting_info with
  | some meeting_info =>
    dumpObj [("meeting_title", dumpStr meeting_info.meeting_title),
             ("person_names", dumpStrList meeting_info.person_names),
             ("start_time", dumpOptTime meeting_info.start_time),
             ("description", dumpStr meeting_info.original_description)]
  | none => "No upcoming meetings found"

/-- Tool callback search_meetings_tool. -/
def search_meetings_tool (ca : CalendarAgentLC) (query : String) : String :=
  let meetings := ca.search_meetings_by_keyword query 5
  if meetings.isEmpty then "No meetings found for keyword: " ++ query
  else
    "[" ++ String.intercalate ", " (meetings.map fun meeting =>
      dumpObj [("meeting_title", dumpStr meeting.meeting_title),
               ("person_names", dumpStrList meeting.person_names),
               ("start_time", dumpOptTime meeting.start_time),
               ("description",
                dumpStr (if meeting.original_description.length > 200 then
                  meeting.original_description.take 200 ++ "..."
                else meeting.original_description))]) ++ "]"

/-- Tool callback get_meetings_for_date_tool; its try block catches an
exception from get_events_for_day and reports it as a string. -/
def get_meetings_for_date_tool (ca : CalendarAgentLC) (date_str : String) : String :=
  match ca.get_events_for_day date_str with
  | .error e => "Error getting meetings for " ++ date_str ++ ": " ++ e
  | .ok day_events =>
    if day_events.total_events > 0 then
      "[" ++ String.intercalate ", " (day_events.meetings.map fun meeting =>
        dumpObj [("meeting_title", dumpStr meeting.meeting_title),
                 ("attendee_names", dumpStrList meeting.attendee_display_names),
                 ("start_time", dumpOptTime meeting.start_time),
                 ("end_time", dumpOptTime meeting.end_time),
                 ("description", dumpStr meeting.original_description),
                 ("location", dumpStr meeting.location),
                 ("organizer",
                  dumpStr (if meeting.organizer_name = "" then meeting.organizer_email
                    else meeting.organizer_name))]) ++ "]"
    else "No meetings found for date: " ++ date_str

/-- Tool callback get_meeting_by_id_tool. -/
def get_meeting_by_id_tool (ca : CalendarAgentLC) (event_id : String) : String :=
  match ca.get_meeting_info_by_id event_id with
  | some meeting_info =>
    dumpObj [("meeting_title", dumpStr meeting_info.meeting_title),
             ("person_names", dumpStrList meeting_info.person_names),
             ("start_time", dumpOptTime meeting_info.start_time),
             ("description", dumpStr meeting_info.original_description)]
  | none => "Meeting not found for ID: " ++ event_id

/-- The tool list built by LangChainCalendarAgent._create_tools, in source
order. -/
def create_tools (ca : CalendarAgentLC) : List Tool :=
  [⟨"get_next_meeting", get_next_meeting_tool ca,
    "Get information about the next upcoming meeting including title, attendees, and description"⟩,
   ⟨"get_meetings_for_date", get_meetings_for_date_tool ca,
    "Get all meetings for a specific date. Input should be in YYYY-MM-DD format. This is the PRIMARY tool to use when asked for meetings on a specific date."⟩,
   ⟨"search_meetings", search_meetings_tool ca,
    "Search for meetings by keyword in title or description. Useful for finding specific types of meetings like interview, standup, review, etc."⟩,
   ⟨"get_meeting_by_id", get_meeting_by_id_tool ca,
    "Get detailed information about a specific meeting using its event ID"⟩]

/-- The ChatOpenAI configuration built in the constructor. -/
structure ChatOpenAI where
  temperature : Nat
  model : String
  openai_api_key : String
deriving Repr

/-- The ReAct prompt template string of _create_agent. -/
def reactPromptTemplate : String :=
  "You are a helpful calendar assistant that can access Google Calendar data and extract meeting information.\n\nYou have access to the following tools:\n{tools}\n\nUse the following format:\n\nQuestion: the input question you must answer\nThought: you should always think about what to do\nAction: the action to take, should be one of [{tool_names}]\nAction Input: the input to the action\nObservation: the result of the action\n... (this Thought/Action/Action Input/Observation can repeat N times)\nThought: I now know the final answer\nFinal Answer: the final answer to the original input question\n\nWhen extracting person names and meeting titles, be thorough and accurate. \nIf multiple people are mentioned, list them all.\nIf the meeting title in the description is more descriptive than the calendar title, prefer the description version.\n\nQuestion: {input}\nThought: {agent_scratchpad}"

/-- A PromptTemplate value. -/
structure PromptTemplate where
  template : String
  input_variables : List String
  tools_text : String
  tool_names_text : String

/-- The ReAct agent returned by create_react_agent. -/
structure ReActAgent where
  llm : ChatOpenAI
  tools : List Tool
  prompt : PromptTemplate

/-- The prompt built in _create_agent from the tool list. -/
def create_prompt (tools : List Tool) : PromptTemplate :=
  ⟨reactPromptTemplate,
   ["input", "agent_scratchpad"],
   String.intercalate "\n" (tools.map fun tool => tool.name ++ ": " ++ tool.description),
   String.intercalate ", " (tools.map Tool.name)⟩

/-- The LangChainCalendarAgent object after __init__. -/
structure LangChainCalendarAgent where
  calendar_agent : CalendarAgentLC
  llm : ChatOpenAI
  tools : List Tool
  agent : ReActAgent

/-- LangChainCalendarAgent.__init__: build the LLM handle, the tools and
the ReAct agent. -/
def LangChainCalendarAgent.init (ca : CalendarAgentLC) (api_key : String) :
    LangChainCalendarAgent :=
  let llm : ChatOpenAI := ⟨0, "gpt-3.5-turbo", api_key⟩
  let tools := create_tools ca
  ⟨ca, llm, tools, ⟨llm, tools, create_prompt tools⟩⟩

/-- The AgentExecutor configuration. -/
structure AgentExecutor where
  agent : ReActAgent
  tools : List Tool
  verbose : Bool
  max_iterations : Nat

/-- The executor constructed inside LangChainCalendarAgent.run. -/
def LangChainCalendarAgent.run_executor (a : LangChainCalendarAgent) : AgentExecutor :=
  ⟨a.agent, a.tools, true, 5⟩

/-! ## Helper lemmas -/

theorem mapME_ok_mem {α β ε : Type} {f : α → Except ε β} {l : List α} {ys : List β}
    (h : mapME f l = .ok ys) : ∀ y ∈ ys, ∃ x ∈ l, f x = .ok y := by
  induction l generalizing ys with
  | nil =>
    simp only [mapME, Except.ok.injEq] at h
    subst h
    intro y hy
    simp at hy
  | cons x xs ih =>
    intro y hy
    simp only [mapME] at h
    cases hfx : f x with
    | error e => rw [hfx] at h; exact absurd h (by simp)
    | ok y1 =>
      rw [hfx] at h
      cases hxs : mapME f xs with
      | error e => rw [hxs] at h; exact absurd h (by simp)
      | ok ys1 =>
        rw [hxs] at h
        simp only [Except.ok.injEq] at h
        subst h
        rcases List.mem_cons.mp hy with rfl | hmem
        · exact ⟨x, List.mem_cons_self x xs, hfx⟩
        · obtain ⟨x2, hx2, hfx2⟩ := ih hxs y hmem
          exact ⟨x2, List.mem_cons_of_mem _ hx2, hfx2⟩

theorem enhanceMeeting_ok {agent : CalendarAgent} {m : Meeting} {j : Json}
    (h : enhanceMeeting agent m = .ok j) :
    ∃ rs s q, agent.research_meeting_attendees m = .ok rs ∧ j = meetingJson m rs s q := by
  unfold enhanceMeeting at h
  split at h
  · exact absurd h (by simp)
  next rs hr =>
    split at h
    next e hs =>
      simp only [Except.ok.injEq] at h
      exact ⟨rs, _, _, hr, h.symm⟩
    next s hs =>
      split at h
      next e hq =>
        simp only [Except.ok.injEq] at h
        exact ⟨rs, _, _, hr, h.symm⟩
      next q hq =>
        simp only [Except.ok.injEq] at h
        exact ⟨rs, s, q, hr, h.symm⟩

theorem attendeeJson_shape (r : AttendeeResearchResult) :
    attendeeShapeOk (attendeeJson r) = true := rfl

theorem attendeesAll_shape (rs : List AttendeeResearchResult) :
    (rs.map attendeeJson).all attendeeShapeOk = true := by
  induction rs with
  | nil => rfl
  | cons r rs ih => simp [List.all_cons, attendeeJson_shape r, ih]

theorem meetingJson_shape (m : Meeting) (rs : List AttendeeResearchResult) (s q : String) :
    meetingShapeOk (meetingJson m rs s q) = true := by
  cases hst : m.start_time <;> cases het : m.end_time <;>
    simp [meetingShapeOk, meetingJson, jsonKeys, lookupField, isObjB, isStrOrNull,
      optTimeJson, hst, het, List.lookup, attendeesAll_shape rs]

theorem meetingJson_keys (m : Meeting) (rs : List AttendeeResearchResult) (s q : String) :
    jsonKeys (meetingJson m rs s q)
      = ["id", "title", "start_time", "end_time", "location", "description",
         "attendees", "research_summary", "preparation_questions"] := rfl

theorem meetingJson_start_time (m : Meeting) (rs : List AttendeeResearchResult) (s q : String) :
    lookupField (meetingJson m rs s q) "start_time" = some (optTimeJson m.start_time) := rfl

theorem meetingJson_end_time (m : Meeting) (rs : List AttendeeResearchResult) (s q : String) :
    lookupField (meetingJson m rs s q) "end_time" = some (optTimeJson m.end_time) := rfl

theorem meetingDetailsCore_ok {agent : CalendarAgent} {mid : String} {r : Response}
    (h : meetingDetailsCore agent mid = .ok r) :
    (agent.get_meeting_by_id mid = .ok none
      ∧ r = ⟨404, .obj [("error", .str "Meeting not found")]⟩)
    ∨ (∃ m rs s q, agent.get_meeting_by_id mid = .ok (some m)
        ∧ agent.research_meeting_attendees m = .ok rs
        ∧ agent.generate_meeting_summary m rs = .ok s
        ∧ agent.generate_meeting_type_questions m rs = .ok q
        ∧ r = ⟨200, meetingJson m rs s q⟩) := by
  unfold meetingDetailsCore at h
  split at h
  next e heq => exact absurd h (by simp)
  next heq =>
    simp only [Except.ok.injEq] at h
    exact Or.inl ⟨heq, h.symm⟩
  next meeting heq =>
    split at h
    next e h2 => exact absurd h (by simp)
    next rs h2 =>
      split at h
      next e h3 => exact absurd h (by simp)
      next s h3 =>
        split at h
        next e h4 => exact absurd h (by simp)
        next q h4 =>
          simp only [Except.ok.injEq] at h
          exact Or.inr ⟨meeting, rs, s, q, heq, h2, h3, h4, h.symm⟩

theorem nextMeetingCore_ok {agent : CalendarAgent} {r : Response}
    (h : nextMeetingCore agent = .ok r) :
    (agent.get_next_meeting_info = .ok none
      ∧ r = ⟨200, .obj [("message", .str "No upcoming meetings found"),
                        ("meeting", .null)]⟩)
    ∨ (∃ m rs s q, agent.get_next_meeting_info = .ok (some m)
        ∧ agent.research_meeting_attendees m = .ok rs
        ∧ agent.generate_meeting_summary m rs = .ok s
        ∧ agent.generate_meeting_type_questions m rs = .ok q
        ∧ r = ⟨200, .obj [("meeting", meetingJson m rs s q)]⟩) := by
  unfold nextMeetingCore at h
  split at h
  next e heq => exact absurd h (by simp)
  next heq =>
    simp only [Except.ok.injEq] at h
    exact Or.inl ⟨heq, h.symm⟩
  next meeting heq =>
    split at h
    next e h2 => exact absurd h (by simp)
    next rs h2 =>
      split at h
      next e h3 => exact absurd h (by simp)
      next s h3 =>
        split at h
        next e h4 => exact absurd h (by simp)
        next q h4 =>
          simp only [Except.ok.injEq] at h
          exact Or.inr ⟨meeting, rs, s, q, heq, h2, h3, h4, h.symm⟩

theorem searchMeetingsCore_ok {agent : CalendarAgent} {body : SearchBody} {r : Response}
    (h : searchMeetingsCore agent body = .ok r) :
    (∃ kw?, body = .ok kw? ∧ kw?.getD "" = ""
      ∧ r = ⟨400, .obj [("error", .str "Keyword is required")]⟩)
    ∨ (∃ kw? meetings enhanced, body = .ok kw? ∧ kw?.getD "" ≠ ""
        ∧ agent.search_meetings_by_keyword (kw?.getD "") 5 = .ok meetings
        ∧ mapME (enhanceMeeting agent) meetings = .ok enhanced
        ∧ r = ⟨200, .obj [("keyword", .str (kw?.getD "")),
                          ("meetings", .arr enhanced),
                          ("count", .num enhanced.length)]⟩) := by
  cases body with
  | error e => exact absurd h (by simp [searchMeetingsCore])
  | ok kw? =>
    simp only [searchMeetingsCore] at h
    split at h
    next hkw =>
      simp only [Except.ok.injEq] at h
      exact Or.inl ⟨kw?, rfl, hkw, h.symm⟩
    next hkw =>
      split at h
      next e h2 => exact absurd h (by simp)
      next meetings h2 =>
        split at h
        next e h3 => exact absurd h (by simp)
        next enhanced h3 =>
          simp only [Except.ok.injEq] at h
          exact Or.inr ⟨kw?, meetings, enhanced, rfl, hkw, h2, h3, h.symm⟩

theorem dedupGo_mem_first {l : List Meeting} {seen : List String} {m : Meeting}
    (hm : m ∈ dedupGo seen l) :
    m.meeting_title ∉ seen
    ∧ l.find? (fun x => x.meeting_title == m.meeting_title) = some m := by
  induction l generalizing seen with
  | nil => simp [dedupGo] at hm
  | cons a l ih =>
    by_cases ha : a.meeting_title ∈ seen
    · rw [dedupGo, if_pos ha] at hm
      obtain ⟨h1, h2⟩ := ih hm
      have hne : a.meeting_title ≠ m.meeting_title := by
        intro he; exact h1 (he ▸ ha)
      refine ⟨h1, ?_⟩
      rw [List.find?_cons_of_neg _ (by simp [hne]), h2]
    · rw [dedupGo, if_neg ha] at hm
      rcases List.mem_cons.mp hm with rfl | hm2
      · exact ⟨ha, by rw [List.find?_cons_of_pos _ (by simp)]⟩
      · obtain ⟨h1, h2⟩ := ih hm2
        have h1a : m.meeting_title ∉ seen := fun hx => h1 (List.mem_cons_of_mem _ hx)
        have hne : a.meeting_title ≠ m.meeting_title := by
          intro he; exact h1 (by rw [← he]; exact List.mem_cons_self _ _)
        refine ⟨h1a, ?_⟩
        rw [List.find?_cons_of_neg _ (by simp [hne]), h2]

theorem dedupGo_titles_nodup (l : List Meeting) :
    ∀ seen, ((dedupGo seen l).map Meeting.meeting_title).Nodup
      ∧ ∀ t ∈ (dedupGo seen l).map Meeting.meeting_title, t ∉ seen := by
  induction l with
  | nil => intro seen; exact ⟨List.nodup_nil, by simp [dedupGo]⟩
  | cons a l ih =>
    intro seen
    by_cases ha : a.meeting_title ∈ seen
    · rw [dedupGo, if_pos ha]; exact ih seen
    · rw [dedupGo, if_neg ha]
      obtain ⟨hnd, hnotin⟩ := ih (a.meeting_title :: seen)
      constructor
      · rw [List.map_cons]
        refine List.nodup_cons.mpr ⟨?_, hnd⟩
        intro hmem
        exact hnotin _ hmem (List.mem_cons_self _ _)
      · rw [List.map_cons]
        intro t ht
        rcases List.mem_cons.mp ht with rfl | ht2
        · exact ha
        · exact fun hs => hnotin _ ht2 (List.mem_cons_of_mem _ hs)

theorem dedupGo_covers {l : List Meeting} {seen : List String} {m : Meeting}
    (hm : m ∈ l) (hs : m.meeting_title ∉ seen) :
    ∃ m2 ∈ dedupGo seen l, m2.meeting_title = m.meeting_title := by
  induction l generalizing seen with
  | nil => simp at hm
  | cons a l ih =>
    by_cases ha : a.meeting_title ∈ seen
    · rw [dedupGo, if_pos ha]
      rcases List.mem_cons.mp hm with rfl | hm2
      · exact absurd ha hs
      · exact ih hm2 hs
    · rw [dedupGo, if_neg ha]
      by_cases he : m.meeting_title = a.meeting_title
      · exact ⟨a, List.mem_cons_self _ _, he.symm⟩
      · rcases List.mem_cons.mp hm with rfl | hm2
        · exact absurd rfl he
        · obtain ⟨m2, hmem, heq⟩ := ih hm2 (by
            intro hx
            rcases List.mem_cons.mp hx with h | h
            · exact he h
            · exact hs h)
          exact ⟨m2, List.mem_cons_of_mem _ hmem, heq⟩

/-! ## Claim theorems -/

/-- Claim C9: GET /health always returns HTTP 200 with status healthy, for
every state of the agent singleton; agent unavailability is reported only
through the agent_available boolean. -/
theorem health_always_healthy (agent? : Option CalendarAgent) (now : DateTime) :
    (health_check agent? now).status = 200
    ∧ lookupField (health_check agent? now).body "status" = some (.str "healthy")
    ∧ lookupField (health_check agent? now).body "agent_available"
        = some (.bool agent?.isSome) := ⟨rfl, rfl, rfl⟩

/-- Claim C7: every request handler is read-only with respect to the
module-level state: dispatching any request returns the server state
unchanged. -/
theorem handlers_read_only (s : ServerState) (r : Request) :
    (handleRequest s r).2 = s := by
  cases r <;> rfl

/-- Claim C4: the LangChain wrapper registers exactly the four named tools
in order, builds the ReAct prompt template over them, and the executor in
run carries max_iterations = 5. -/
theorem langchain_four_tools (ca : CalendarAgentLC) (api_key : String) :
    ((LangChainCalendarAgent.init ca api_key).tools.map Tool.name
        = ["get_next_meeting", "get_meetings_for_date", "search_meetings",
           "get_meeting_by_id"])
    ∧ (LangChainCalendarAgent.init ca api_key).tools.length = 4
    ∧ (LangChainCalendarAgent.init ca api_key).run_executor.max_iterations = 5
    ∧ (LangChainCalendarAgent.init ca api_key).agent.prompt.template = reactPromptTemplate
    ∧ (LangChainCalendarAgent.init ca api_key).run_executor.tools
        = (LangChainCalendarAgent.init ca api_key).tools :=
  ⟨rfl, rfl, rfl, rfl, rfl⟩

/-- Claim C2: in the keyword-scan fallback, the resulting meeting list has
pairwise distinct titles, each kept meeting is the first occurrence of its
title in the concatenated keyword-search order, no title of the
concatenation is lost by deduplication, and the result is exactly the
deduplicated meetings whose start_time is non-null and falls on the
requested date. -/
theorem keyword_scan_dedup_filter (agent : CalendarAgent) (target : Date)
    (lists : List (List Meeting))
    (h : mapME (fun k => agent.search_meetings_by_keyword k 20) genericKeywords = .ok lists) :
    scanAllMeetings agent target = (dedupByTitle lists.flatten).filter (matchesDate target)
    ∧ ((scanAllMeetings agent target).map Meeting.meeting_title).Nodup
    ∧ (∀ m ∈ scanAllMeetings agent target,
        m ∈ dedupByTitle lists.flatten ∧ matchesDate target m = true)
    ∧ (∀ m ∈ dedupByTitle lists.flatten, matchesDate target m = true →
        m ∈ scanAllMeetings agent target)
    ∧ (∀ m ∈ dedupByTitle lists.flatten,
        lists.flatten.find? (fun x => x.meeting_title == m.meeting_title) = some m)
    ∧ (∀ m ∈ lists.flatten,
        ∃ m2 ∈ dedupByTitle lists.flatten, m2.meeting_title = m.meeting_title)
    ∧ (∀ m : Meeting, matchesDate target m = true
        ↔ ∃ dt, m.start_time = some dt ∧ dt.date = target) := by
  have hA : scanAllMeetings agent target
      = (dedupByTitle lists.flatten).filter (matchesDate target) := by
    unfold scanAllMeetings
    rw [h]
  refine ⟨hA, ?_, ?_, ?_, ?_, ?_, ?_⟩
  · rw [hA]
    exact ((dedupGo_titles_nodup lists.flatten [] |>.1).sublist
      ((List.filter_sublist _).map Meeting.meeting_title))
  · intro m hm
    rw [hA] at hm
    exact ⟨(List.mem_filter.mp hm).1, (List.mem_filter.mp hm).2⟩
  · intro m hm hd
    rw [hA]
    exact List.mem_filter.mpr ⟨hm, hd⟩
  · intro m hm
    exact (dedupGo_mem_first hm).2
  · intro m hm
    exact dedupGo_covers hm (by simp)
  · intro m
    cases hst : m.start_time with
    | none => simp [matchesDate, hst]
    | some dt => simp [matchesDate, hst]

/-- Witness for keyword_scan_dedup_filter at the agent whose searches are
all empty, on 2025-09-24. -/
theorem keyword_scan_dedup_filter_witness :
    mapME (fun k => agentEmpty.search_meetings_by_keyword k 20) genericKeywords
      = .ok [[], [], [], [], [], [], []]
    ∧ scanAllMeetings agentEmpty ⟨2025, 9, 24⟩
        = (dedupByTitle ([[], [], [], [], [], [], []] : List (List Meeting)).flatten).filter
            (matchesDate ⟨2025, 9, 24⟩) :=
  ⟨rfl, (keyword_scan_dedup_filter agentEmpty ⟨2025, 9, 24⟩
    [[], [], [], [], [], [], []] rfl).1⟩

theorem tryDateFormats_eq_spec (agent : CalendarAgent) :
    ∀ l, tryDateFormats agent l = specTryInOrder agent l := by
  intro l
  induction l with
  | nil => rfl
  | cons f fs ih =>
    rw [tryDateFormats, specTryInOrder]
    cases hs : agent.search_meetings_by_keyword f 10 with
    | error e => rfl
    | ok ms => cases ms <;> simp [ih]

theorem resolve_eq_spec (agent : CalendarAgent) (date_str : String) (target : Date) :
    resolveMeetingsForDate agent date_str target
      = specFallbackSearch agent date_str target := by
  unfold resolveMeetingsForDate specFallbackSearch
  cases hs : agent.search_meetings_by_keyword date_str 10 with
  | error e => rfl
  | ok meetings =>
    cases meetings with
    | cons m ms => simp
    | nil =>
      show (match tryDateFormats agent (dateFormats target) with
            | Except.error e => Except.error e
            | Except.ok meetings2 =>
              if meetings2.isEmpty then Except.ok (scanAllMeetings agent target)
              else Except.ok meetings2)
          = (match specTryInOrder agent (dateFormats target) with
            | Except.error e => Except.error e
            | Except.ok reformatted =>
              if reformatted ≠ [] then Except.ok reformatted
              else Except.ok (specGenericScan agent target))
      rw [tryDateFormats_eq_spec agent (dateFormats target)]
      cases h2 : specTryInOrder agent (dateFormats target) with
      | error e => rfl
      | ok ms2 => cases ms2 <;> rfl

/-- Claim C1: for a request GET /meetings/date_str with a date parsing as
YYYY-MM-DD, the handler resolves meetings by the exact fallback cascade of
the claim: literal date string first, then the six reformatted date strings
in order stopping at the first non-empty result, then the generic keyword
scan filtered client-side by date. -/
theorem fallback_cascade_order (agent : CalendarAgent) (date_str : String) (target : Date)
    (h : strptimeYmd date_str = some target) :
    resolveMeetingsForDate agent date_str target
      = specFallbackSearch agent date_str target
    ∧ get_meetings_for_date (some agent) date_str
        = meetingsDateResponse date_str
            ((specFallbackSearch agent date_str target).bind
              (fun meetings => mapME (enhanceMeeting agent) meetings)) := by
  refine ⟨resolve_eq_spec agent date_str target, ?_⟩
  unfold get_meetings_for_date
  simp only [h]
  rw [resolve_eq_spec]

/-- Witness for fallback_cascade_order on the date 2025-09-24 and the
agent that finds m0 under the literal date string. -/
theorem fallback_cascade_order_witness :
    strptimeYmd "2025-09-24" = some ⟨2025, 9, 24⟩
    ∧ resolveMeetingsForDate agentOne "2025-09-24" ⟨2025, 9, 24⟩
        = specFallbackSearch agentOne "2025-09-24" ⟨2025, 9, 24⟩ :=
  ⟨by decide, (fallback_cascade_order agentOne "2025-09-24" ⟨2025, 9, 24⟩ (by decide)).1⟩

theorem gmfd_cases (agent? : Option CalendarAgent) (ds : String) :
    ((get_meetings_for_date agent? ds).status = 200
      ∧ ∃ agent target enhanced meetings, agent? = some agent
          ∧ strptimeYmd ds = some target
          ∧ resolveMeetingsForDate agent ds target = .ok meetings
          ∧ mapME (enhanceMeeting agent) meetings = .ok enhanced
          ∧ get_meetings_for_date agent? ds
              = ⟨200, .obj [("date", .str ds), ("meetings", .arr enhanced),
                            ("count", .num enhanced.length)]⟩)
    ∨ ((get_meetings_for_date agent? ds).status = 500
        ∧ errorStringField (get_meetings_for_date agent? ds).body = true) := by
  cases agent? with
  | none => exact Or.inr ⟨rfl, rfl⟩
  | some agent =>
    cases hp : strptimeYmd ds with
    | none =>
      have hh : get_meetings_for_date (some agent) ds
          = ⟨500, .obj [("error", .str (strptimeErrorMsg ds)), ("meetings", .arr [])]⟩ := by
        unfold get_meetings_for_date
        rw [hp]
      rw [hh]
      exact Or.inr ⟨rfl, rfl⟩
    | some target =>
      have hh : get_meetings_for_date (some agent) ds
          = meetingsDateResponse ds ((resolveMeetingsForDate agent ds target).bind
              fun meetings => mapME (enhanceMeeting agent) meetings) := by
        unfold get_meetings_for_date
        rw [hp]
      cases hr : resolveMeetingsForDate agent ds target with
      | error e =>
        rw [hh, hr]
        exact Or.inr ⟨rfl, rfl⟩
      | ok meetings =>
        cases hm : mapME (enhanceMeeting agent) meetings with
        | error e =>
          rw [hh, hr, show (Except.ok meetings : Except String (List Meeting)).bind
              (fun meetings => mapME (enhanceMeeting agent) meetings)
              = Except.error e from by rw [← hm]; rfl]
          exact Or.inr ⟨rfl, rfl⟩
        | ok enhanced =>
          rw [hh, hr, show (Except.ok meetings : Except String (List Meeting)).bind
              (fun meetings => mapME (enhanceMeeting agent) meetings)
              = Except.ok enhanced from by rw [← hm]; rfl]
          exact Or.inl ⟨rfl, agent, target, enhanced, meetings, rfl, rfl, hr, hm, rfl⟩

theorem details_cases (agent? : Option CalendarAgent) (mid : String) :
    ((get_meeting_details agent? mid).status = 200
      ∧ ∃ agent m rs s q, agent? = some agent
          ∧ agent.get_meeting_by_id mid = .ok (some m)
          ∧ get_meeting_details agent? mid = ⟨200, meetingJson m rs s q⟩)
    ∨ ((get_meeting_details agent? mid).status = 404
        ∧ errorStringField (get_meeting_details agent? mid).body = true
        ∧ ∃ agent, agent? = some agent ∧ agent.get_meeting_by_id mid = .ok none)
    ∨ ((get_meeting_details agent? mid).status = 500
        ∧ errorStringField (get_meeting_details agent? mid).body = true) := by
  cases agent? with
  | none => exact Or.inr (Or.inr ⟨rfl, rfl⟩)
  | some agent =>
    cases hc : meetingDetailsCore agent mid with
    | error e =>
      have hh : get_meeting_details (some agent) mid
          = ⟨500, .obj [("error", .str e)]⟩ := by
        show (match meetingDetailsCore agent mid with
              | Except.ok r => r
              | Except.error e => ⟨500, Json.obj [("error", Json.str e)]⟩) = _
        rw [hc]
      rw [hh]
      exact Or.inr (Or.inr ⟨rfl, rfl⟩)
    | ok r =>
      have hh : get_meeting_details (some agent) mid = r := by
        show (match meetingDetailsCore agent mid with
              | Except.ok r => r
              | Except.error e => ⟨500, Json.obj [("error", Json.str e)]⟩) = _
        rw [hc]
      rw [hh]
      rcases meetingDetailsCore_ok hc with ⟨hid, rfl⟩ | ⟨m, rs, s, q, hid, _, _, _, rfl⟩
      · exact Or.inr (Or.inl ⟨rfl, rfl, agent, rfl, hid⟩)
      · exact Or.inl ⟨rfl, agent, m, rs, s, q, rfl, hid, rfl⟩

theorem next_cases (agent? : Option CalendarAgent) :
    ((get_next_meeting agent?).status = 200
      ∧ nextMeetingShaped (get_next_meeting agent?) = true)
    ∨ ((get_next_meeting agent?).status = 500
        ∧ errorStringField (get_next_meeting agent?).body = true) := by
  cases agent? with
  | none => exact Or.inr ⟨rfl, rfl⟩
  | some agent =>
    cases hc : nextMeetingCore agent with
    | error e =>
      have hh : get_next_meeting (some agent) = ⟨500, .obj [("error", .str e)]⟩ := by
        show (match nextMeetingCore agent with
              | Except.ok r => r
              | Except.error e => ⟨500, Json.obj [("error", Json.str e)]⟩) = _
        rw [hc]
      rw [hh]
      exact Or.inr ⟨rfl, rfl⟩
    | ok r =>
      have hh : get_next_meeting (some agent) = r := by
        show (match nextMeetingCore agent with
              | Except.ok r => r
              | Except.error e => ⟨500, Json.obj [("error", Json.str e)]⟩) = _
        rw [hc]
      rw [hh]
      rcases nextMeetingCore_ok hc with ⟨hn, rfl⟩ | ⟨m, rs, s, q, hn, _, _, _, rfl⟩
      · exact Or.inl ⟨rfl, rfl⟩
      · exact Or.inl ⟨rfl, meetingJson_shape m rs s q⟩

theorem search_cases (agent? : Option CalendarAgent) (body : SearchBody) :
    ((search_meetings agent? body).status = 200
      ∧ ∃ agent kw meetings enhanced, agent? = some agent
          ∧ agent.search_meetings_by_keyword kw 5 = .ok meetings
          ∧ mapME (enhanceMeeting agent) meetings = .ok enhanced
          ∧ search_meetings agent? body
              = ⟨200, .obj [("keyword", .str kw), ("meetings", .arr enhanced),
                            ("count", .num enhanced.length)]⟩)
    ∨ ((search_meetings agent? body).status = 400
        ∧ errorStringField (search_meetings agent? body).body = true)
    ∨ ((search_meetings agent? body).status = 500
        ∧ errorStringField (search_meetings agent? body).body = true) := by
  cases agent? with
  | none => exact Or.inr (Or.inr ⟨rfl, rfl⟩)
  | some agent =>
    cases hc : searchMeetingsCore agent body with
    | error e =>
      have hh : search_meetings (some agent) body = ⟨500, .obj [("error", .str e)]⟩ := by
        show (match searchMeetingsCore agent body with
              | Except.ok r => r
              | Except.error e => ⟨500, Json.obj [("error", Json.str e)]⟩) = _
        rw [hc]
      rw [hh]
      exact Or.inr (Or.inr ⟨rfl, rfl⟩)
    | ok r =>
      have hh : search_meetings (some agent) body = r := by
        show (match searchMeetingsCore agent body with
              | Except.ok r => r
              | Except.error e => ⟨500, Json.obj [("error", Json.str e)]⟩) = _
        rw [hc]
      rw [hh]
      rcases searchMeetingsCore_ok hc with ⟨kw?, _, hkw, rfl⟩ |
          ⟨kw?, meetings, enhanced, _, hne, hs, hm, rfl⟩
      · exact Or.inr (Or.inl ⟨rfl, rfl⟩)
      · exact Or.inl ⟨rfl, agent, kw?.getD "", meetings, enhanced, rfl, hs, hm, rfl⟩

theorem errorField_isObj {j : Json} (h : errorStringField j = true) : isObjB j = true := by
  cases j <;> simp_all [errorStringField, lookupField, isObjB]

theorem nextShaped_isObj {r : Response} (h : nextMeetingShaped r = true) :
    isObjB r.body = true := by
  unfold nextMeetingShaped lookupField at h
  cases hb : r.body <;> rw [hb] at h <;> simp_all [isObjB]

/-- Counterexample to claim C3 as stated: a POST /search-meetings request
with an empty keyword is a failure path that returns HTTP 400, which is
neither 500 nor 404. -/
theorem error_status_counterexample :
    (search_meetings (some agentEmpty) (.ok (some ""))).status = 400
    ∧ errorStringField (search_meetings (some agentEmpty) (.ok (some ""))).body = true
    ∧ (search_meetings (some agentEmpty) (.ok (some ""))).status ≠ 404
    ∧ (search_meetings (some agentEmpty) (.ok (some ""))).status ≠ 500 :=
  ⟨rfl, rfl, by decide, by decide⟩

/-- Claim C3 as amended: every failure response carries an error string in
a JSON body; the status is 500, except 404 when the requested meeting of
GET /meeting/id is not found and 400 when the keyword of
POST /search-meetings is missing or empty; GET /health never fails, and a
404 arises only when the lookup returned no meeting. -/
theorem error_status_taxonomy (agent? : Option CalendarAgent) (ds mid : String)
    (body : SearchBody) (now : DateTime) :
    ((health_check agent? now).status = 200)
    ∧ ((get_meetings_for_date agent? ds).status = 200
        ∨ ((get_meetings_for_date agent? ds).status = 500
            ∧ errorStringField (get_meetings_for_date agent? ds).body = true))
    ∧ ((get_meeting_details agent? mid).status = 200
        ∨ (((get_meeting_details agent? mid).status = 404
              ∨ (get_meeting_details agent? mid).status = 500)
            ∧ errorStringField (get_meeting_details agent? mid).body = true))
    ∧ ((get_next_meeting agent?).status = 200
        ∨ ((get_next_meeting agent?).status = 500
            ∧ errorStringField (get_next_meeting agent?).body = true))
    ∧ ((search_meetings agent? body).status = 200
        ∨ (((search_meetings agent? body).status = 400
              ∨ (search_meetings agent? body).status = 500)
            ∧ errorStringField (search_meetings agent? body).body = true))
    ∧ ((get_meeting_details agent? mid).status = 404
        → ∃ agent, agent? = some agent ∧ agent.get_meeting_by_id mid = .ok none) := by
  refine ⟨rfl, ?_, ?_, ?_, ?_, ?_⟩
  · rcases gmfd_cases agent? ds with ⟨h200, _⟩ | ⟨h500, herr⟩
    · exact Or.inl h200
    · exact Or.inr ⟨h500, herr⟩
  · rcases details_cases agent? mid with ⟨h200, _⟩ | ⟨h404, herr, _⟩ | ⟨h500, herr⟩
    · exact Or.inl h200
    · exact Or.inr ⟨Or.inl h404, herr⟩
    · exact Or.inr ⟨Or.inr h500, herr⟩
  · rcases next_cases agent? with ⟨h200, _⟩ | ⟨h500, herr⟩
    · exact Or.inl h200
    · exact Or.inr ⟨h500, herr⟩
  · rcases search_cases agent? body with ⟨h200, _⟩ | ⟨h400, herr⟩ | ⟨h500, herr⟩
    · exact Or.inl h200
    · exact Or.inr ⟨Or.inl h400, herr⟩
    · exact Or.inr ⟨Or.inr h500, herr⟩
  · intro h404
    rcases details_cases agent? mid with ⟨h200, _⟩ | ⟨_, _, hex⟩ | ⟨h500, _⟩
    · exact absurd (h200.symm.trans h404) (by decide)
    · exact hex
    · exact absurd (h500.symm.trans h404) (by decide)

/-- Witness for error_status_taxonomy: a missing meeting id yields 404 and
the lookup indeed returned none. -/
theorem error_status_taxonomy_witness :
    (get_meeting_details (some agentEmpty) "zzz").status = 404
    ∧ ∃ agent, (some agentEmpty : Option CalendarAgent) = some agent
        ∧ agent.get_meeting_by_id "zzz" = .ok none :=
  ⟨rfl, (error_status_taxonomy (some agentEmpty) "d" "zzz" (.ok none) dt0).2.2.2.2.2 rfl⟩

/-- Claim C5: every meeting object of a successful response of the four
meeting endpoints has exactly the nine meeting fields, its start_time and
end_time are ISO strings when the underlying datetime is present and null
otherwise, and every attendee object has exactly the six attendee
fields. -/
theorem meeting_payload_shape (agent? : Option CalendarAgent) (ds mid : String)
    (body : SearchBody) :
    ((get_meetings_for_date agent? ds).status = 200
      → responseMeetingsShaped (get_meetings_for_date agent? ds) = true)
    ∧ ((search_meetings agent? body).status = 200
      → responseMeetingsShaped (search_meetings agent? body) = true)
    ∧ ((get_meeting_details agent? mid).status = 200
      → meetingShapeOk (get_meeting_details agent? mid).body = true)
    ∧ ((get_next_meeting agent?).status = 200
      → nextMeetingShaped (get_next_meeting agent?) = true)
    ∧ (∀ m rs s q, meetingShapeOk (meetingJson m rs s q) = true
        ∧ lookupField (meetingJson m rs s q) "start_time" = some (optTimeJson m.start_time)
        ∧ lookupField (meetingJson m rs s q) "end_time" = some (optTimeJson m.end_time)
        ∧ jsonKeys (meetingJson m rs s q)
            = ["id", "title", "start_time", "end_time", "location", "description",
               "attendees", "research_summary", "preparation_questions"]) := by
  refine ⟨?_, ?_, ?_, ?_, ?_⟩
  · intro h200
    rcases gmfd_cases agent? ds with ⟨_, agent, target, enhanced, meetings, _, _, _, hm, heq⟩
        | ⟨h500, _⟩
    · rw [heq]
      show enhanced.all meetingShapeOk = true
      rw [List.all_eq_true]
      intro j hj
      obtain ⟨x, _, hfx⟩ := mapME_ok_mem hm j hj
      obtain ⟨rs, s, q, _, rfl⟩ := enhanceMeeting_ok hfx
      exact meetingJson_shape x rs s q
    · exact absurd (h500.symm.trans h200) (by decide)
  · intro h200
    rcases search_cases agent? body with ⟨_, agent, kw, meetings, enhanced, _, _, hm, heq⟩
        | ⟨h400, _⟩ | ⟨h500, _⟩
    · rw [heq]
      show enhanced.all meetingShapeOk = true
      rw [List.all_eq_true]
      intro j hj
      obtain ⟨x, _, hfx⟩ := mapME_ok_mem hm j hj
      obtain ⟨rs, s, q, _, rfl⟩ := enhanceMeeting_ok hfx
      exact meetingJson_shape x rs s q
    · exact absurd (h400.symm.trans h200) (by decide)
    · exact absurd (h500.symm.trans h200) (by decide)
  · intro h200
    rcases details_cases agent? mid with ⟨_, agent, m, rs, s, q, _, _, heq⟩
        | ⟨h404, _, _⟩ | ⟨h500, _⟩
    · rw [heq]
      exact meetingJson_shape m rs s q
    · exact absurd (h404.symm.trans h200) (by decide)
    · exact absurd (h500.symm.trans h200) (by decide)
  · intro h200
    rcases next_cases agent? with ⟨_, hshape⟩ | ⟨h500, _⟩
    · exact hshape
    · exact absurd (h500.symm.trans h200) (by decide)
  · intro m rs s q
    exact ⟨meetingJson_shape m rs s q, rfl, rfl, rfl⟩

/-- Witness for meeting_payload_shape: the concrete agent that finds m0
under the id m1 yields a 200 detail response of the required shape. -/
theorem meeting_payload_shape_witness :
    (get_meeting_details (some agentOne) "m1").status = 200
    ∧ meetingShapeOk (get_meeting_details (some agentOne) "m1").body = true :=
  ⟨rfl, (meeting_payload_shape (some agentOne) "x" "m1" (.ok none)).2.2.1 rfl⟩

/-- Claim C6: the server registers exactly the five routes of the claim
and no others, and every response of every route is a JSON object body. -/
theorem five_routes_json :
    appRoutes = [("/health", ["GET"]),
                 ("/meetings/<date_str>", ["GET"]),
                 ("/meeting/<meeting_id>", ["GET"]),
                 ("/next-meeting", ["GET"]),
                 ("/search-meetings", ["POST"])]
    ∧ appRoutes.length = 5
    ∧ ∀ (s : ServerState) (r : Request), isObjB (handleRequest s r).1.body = true := by
  refine ⟨rfl, rfl, ?_⟩
  intro s r
  cases r with
  | health now => rfl
  | meetingsForDate ds =>
    rcases gmfd_cases s.calendar_agent ds with ⟨_, _, _, _, _, _, _, _, _, heq⟩ | ⟨_, herr⟩
    · show isObjB (get_meetings_for_date s.calendar_agent ds).body = true
      rw [heq]
      rfl
    · exact errorField_isObj herr
  | meetingById mid =>
    rcases details_cases s.calendar_agent mid with ⟨_, _, m, rs, sm, q, _, _, heq⟩
        | ⟨_, herr, _⟩ | ⟨_, herr⟩
    · show isObjB (get_meeting_details s.calendar_agent mid).body = true
      rw [heq]
      rfl
    · exact errorField_isObj herr
    · exact errorField_isObj herr
  | nextMeeting =>
    rcases next_cases s.calendar_agent with ⟨_, hshape⟩ | ⟨_, herr⟩
    · exact nextShaped_isObj hshape
    · exact errorField_isObj herr
  | searchMeetings body =>
    rcases search_cases s.calendar_agent body with ⟨_, _, kw, _, _, _, _, _, heq⟩
        | ⟨_, herr⟩ | ⟨_, herr⟩
    · show isObjB (search_meetings s.calendar_agent body).body = true
      rw [heq]
      rfl
    · exact errorField_isObj herr
    · exact errorField_isObj herr

/-- Claim C10: in every successful response of GET /meetings/date_str and
POST /search-meetings, the count field equals the length of the meetings
array. -/
theorem count_matches_length (agent? : Option CalendarAgent) (ds : String)
    (body : SearchBody) :
    ((get_meetings_for_date agent? ds).status = 200
      → countFieldMatches (get_meetings_for_date agent? ds) = true)
    ∧ ((search_meetings agent? body).status = 200
      → countFieldMatches (search_meetings agent? body) = true) := by
  constructor
  · intro h200
    rcases gmfd_cases agent? ds with ⟨_, _, _, enhanced, _, _, _, _, _, heq⟩ | ⟨h500, _⟩
    · rw [heq]
      exact beq_self_eq_true _
    · exact absurd (h500.symm.trans h200) (by decide)
  · intro h200
    rcases search_cases agent? body with ⟨_, _, kw, _, enhanced, _, _, _, heq⟩
        | ⟨h400, _⟩ | ⟨h500, _⟩
    · rw [heq]
      exact beq_self_eq_true _
    · exact absurd (h400.symm.trans h200) (by decide)
    · exact absurd (h500.symm.trans h200) (by decide)

/-- Witness for count_matches_length at the agent that finds exactly one
meeting under the literal date string. -/
theorem count_matches_length_witness :
    (get_meetings_for_date (some agentOne) "2025-09-24").status = 200
    ∧ countFieldMatches (get_meetings_for_date (some agentOne) "2025-09-24") = true :=
  ⟨rfl, (count_matches_length (some agentOne) "2025-09-24" (.ok none)).1 rfl⟩

/-- Claim C8: when summary or question generation raises for a meeting,
GET /meetings/date_str and POST /search-meetings still return the meeting
in a 200 response with the two error placeholder strings, while
GET /meeting/id and GET /next-meeting abort the whole request with a 500
error body. -/
theorem summary_error_handling (agent : CalendarAgent) (ds : String) (target : Date)
    (m : Meeting) (rs : List AttendeeResearchResult) (e kw mid : String)
    (hp : strptimeYmd ds = some target)
    (hatt : agent.research_meeting_attendees m = .ok rs)
    (hgen : agent.generate_meeting_summary m rs = .error e
      ∨ ∃ s, agent.generate_meeting_summary m rs = .ok s
          ∧ agent.generate_meeting_type_questions m rs = .error e) :
    (agent.search_meetings_by_keyword ds 10 = .ok [m] →
      get_meetings_for_date (some agent) ds
        = ⟨200, .obj [("date", .str ds),
            ("meetings", .arr [meetingJson m rs "Error generating research summary"
              "Error generating preparation questions"]),
            ("count", .num 1)]⟩)
    ∧ (kw ≠ "" → agent.search_meetings_by_keyword kw 5 = .ok [m] →
      search_meetings (some agent) (.ok (some kw))
        = ⟨200, .obj [("keyword", .str kw),
            ("meetings", .arr [meetingJson m rs "Error generating research summary"
              "Error generating preparation questions"]),
            ("count", .num 1)]⟩)
    ∧ (agent.get_meeting_by_id mid = .ok (some m) →
      get_meeting_details (some agent) mid = ⟨500, .obj [("error", .str e)]⟩)
    ∧ (agent.get_next_meeting_info = .ok (some m) →
      get_next_meeting (some agent) = ⟨500, .obj [("error", .str e)]⟩) := by
  have henh : enhanceMeeting agent m
      = .ok (meetingJson m rs "Error generating research summary"
          "Error generating preparation questions") := by
    unfold enhanceMeeting
    rw [hatt]
    rcases hgen with hge | ⟨s, hs, hq⟩
    · simp only [hge]
    · simp only [hs, hq]
  have hmap : mapME (enhanceMeeting agent) [m]
      = .ok [meetingJson m rs "Error generating research summary"
          "Error generating preparation questions"] := by
    simp only [mapME, henh]
  refine ⟨?_, ?_, ?_, ?_⟩
  · intro hsearch
    have hresolve : resolveMeetingsForDate agent ds target = .ok [m] := by
      unfold resolveMeetingsForDate
      rw [hsearch]
      rfl
    unfold get_meetings_for_date
    rw [hp]
    show meetingsDateResponse ds ((resolveMeetingsForDate agent ds target).bind
        fun meetings => mapME (enhanceMeeting agent) meetings) = _
    rw [hresolve]
    show meetingsDateResponse ds (mapME (enhanceMeeting agent) [m]) = _
    rw [hmap]
    rfl
  · intro hkw hsearch
    have h1 : searchMeetingsCore agent (.ok (some kw))
        = (if kw = "" then
            (.ok ⟨400, .obj [("error", .str "Keyword is required")]⟩ : Except String Response)
          else
            match agent.search_meetings_by_keyword kw 5 with
            | Except.error e => Except.error e
            | Except.ok meetings =>
              match mapME (enhanceMeeting agent) meetings with
              | Except.error e => Except.error e
              | Except.ok enhanced =>
                Except.ok ⟨200, Json.obj [("keyword", Json.str kw),
                  ("meetings", Json.arr enhanced),
                  ("count", Json.num enhanced.length)]⟩) := rfl
    have hcore : searchMeetingsCore agent (.ok (some kw))
        = .ok ⟨200, .obj [("keyword", .str kw),
            ("meetings", .arr [meetingJson m rs "Error generating research summary"
              "Error generating preparation questions"]),
            ("count", .num 1)]⟩ := by
      rw [h1, if_neg hkw, hsearch]
      show (match mapME (enhanceMeeting agent) [m] with
            | Except.error e => (Except.error e : Except String Response)
            | Except.ok enhanced =>
              Except.ok ⟨200, Json.obj [("keyword", Json.str kw),
                ("meetings", Json.arr enhanced),
                ("count", Json.num enhanced.length)]⟩) = _
      rw [hmap]
      rfl
    show (match searchMeetingsCore agent (.ok (some kw)) with
          | Except.ok r => r
          | Except.error e => ⟨500, Json.obj [("error", Json.str e)]⟩) = _
    rw [hcore]
  · intro hid
    have hcore : meetingDetailsCore agent mid = .error e := by
      unfold meetingDetailsCore
      rw [hid]
      show (match agent.research_meeting_attendees m with
            | Except.error e => (Except.error e : Except String Response)
            | Except.ok results =>
              match agent.generate_meeting_summary m results with
              | Except.error e => Except.error e
              | Except.ok s =>
                match agent.generate_meeting_type_questions m results with
                | Except.error e => Except.error e
                | Except.ok q => Except.ok ⟨200, meetingJson m results s q⟩) = _
      rw [hatt]
      show (match agent.generate_meeting_summary m rs with
            | Except.error e => (Except.error e : Except String Response)
            | Except.ok s =>
              match agent.generate_meeting_type_questions m rs with
              | Except.error e => Except.error e
              | Except.ok q => Except.ok ⟨200, meetingJson m rs s q⟩) = _
      rcases hgen with hge | ⟨s, hs, hq⟩
      · rw [hge]
      · rw [hs]
        show (match agent.generate_meeting_type_questions m rs with
              | Except.error e => (Except.error e : Except String Response)
              | Except.ok q => Except.ok ⟨200, meetingJson m rs s q⟩) = _
        rw [hq]
    show (match meetingDetailsCore agent mid with
          | Except.ok r => r
          | Except.error e => ⟨500, Json.obj [("error", Json.str e)]⟩) = _
    rw [hcore]
  · intro hnext
    have hcore : nextMeetingCore agent = .error e := by
      unfold nextMeetingCore
      rw [hnext]
      show (match agent.research_meeting_attendees m with
            | Except.error e => (Except.error e : Except String Response)
            | Except.ok results =>
              match agent.generate_meeting_summary m results with
              | Except.error e => Except.error e
              | Except.ok s =>
                match agent.generate_meeting_type_questions m results with
                | Except.error e => Except.error e
                | Except.ok q =>
                  Except.ok ⟨200, .obj [("meeting", meetingJson m results s q)]⟩) = _
      rw [hatt]
      show (match agent.generate_meeting_summary m rs with
            | Except.error e => (Except.error e : Except String Response)
            | Except.ok s =>
              match agent.generate_meeting_type_questions m rs with
              | Except.error e => Except.error e
              | Except.ok q =>
                Except.ok ⟨200, .obj [("meeting", meetingJson m rs s q)]⟩) = _
      rcases hgen with hge | ⟨s, hs, hq⟩
      · rw [hge]
      · rw [hs]
        show (match agent.generate_meeting_type_questions m rs with
              | Except.error e => (Except.error e : Except String Response)
              | Except.ok q =>
                Except.ok ⟨200, .obj [("meeting", meetingJson m rs s q)]⟩) = _
        rw [hq]
    show (match nextMeetingCore agent with
          | Except.ok r => r
          | Except.error e => ⟨500, Json.obj [("error", Json.str e)]⟩) = _
    rw [hcore]

/-- Witness for summary_error_handling at the agent whose summary
generation raises with message boom. -/
theorem summary_error_handling_witness :
    get_meetings_for_date (some agentErrGen) "2025-09-24"
      = ⟨200, .obj [("date", .str "2025-09-24"),
          ("meetings", .arr [meetingJson m0 [r0] "Error generating research summary"
            "Error generating preparation questions"]),
          ("count", .num 1)]⟩
    ∧ get_meeting_details (some agentErrGen) "m1"
        = ⟨500, .obj [("error", .str "boom")]⟩ :=
  ⟨(summary_error_handling agentErrGen "2025-09-24" ⟨2025, 9, 24⟩ m0 [r0] "boom"
      "interview" "m1" (by decide) rfl (Or.inl rfl)).1 rfl,
   (summary_error_handling agentErrGen "2025-09-24" ⟨2025, 9, 24⟩ m0 [r0] "boom"
      "interview" "m1" (by decide) rfl (Or.inl rfl)).2.2.1 rfl⟩

end MeetingAgent
